import Mathlib

/-!
Verification of the colorway-designer core against its specification.

The TypeScript sources are shallowly embedded in Lean:
JavaScript numbers are modelled as exact rationals where the code only
performs arithmetic that is exact on IEEE doubles for the inputs in scope
(the integer LCG state stays below 2 to the 53, so its update is exact),
and as `Option` of rationals (`none` standing for NaN) in the photometric
engine, where NaN creation and propagation is the point of the claims.
The transcendental `Math.pow` has no exact rational counterpart, so every
definition that needs it takes an explicit `powFn` argument and the
theorems quantify over it.  Stateful code (the LCG closure, the transform
cache) is embedded as explicit state passing.
-/

/-! ## SeededRandomSource: the linear congruential generator
(`createSeededRandom` in both `colorUtils.ts` and `voronoiUtils.ts`). -/

/-- One LCG state update: `current = (current * 1664525 + 1013904223) % 4294967296`. -/
def lcgNext (state : ℕ) : ℕ :=
  (state * 1664525 + 1013904223) % 4294967296

/-- One call of the closure returned by `createSeededRandom`: it advances the
captured state and returns `current / 4294967296` together with the new state. -/
def randNext (state : ℕ) : ℚ × ℕ :=
  let current := lcgNext state
  ((current : ℚ) / 4294967296, current)

/-! ## PointFieldGenerator (`generateSeededPoints` in `voronoiUtils.ts`). -/

/-- The loop body of `generateSeededPoints`: for each of the remaining
iterations draw `x = random() * width`, then `y = random() * height`,
threading the LCG state. -/
def generateSeededPointsGo (state : ℕ) (width height : ℚ) : ℕ → List (ℚ × ℚ)
  | 0 => []
  | count + 1 =>
    let rx := randNext state
    let ry := randNext rx.2
    (rx.1 * width, ry.1 * height) :: generateSeededPointsGo ry.2 width height count

/-- `generateSeededPoints(count, width, height, seed)`: creates one seeded
random source and draws `count` points, `x` then `y` per point. -/
def generateSeededPoints (count : ℕ) (width height : ℚ) (seed : ℕ) : List (ℚ × ℚ) :=
  generateSeededPointsGo seed width height count

/-- Reference stream of the specification: the state after `k` steps of the
recurrence started at `s`. -/
def lcgState (s k : ℕ) : ℕ :=
  lcgNext^[k] s

/-- Reference stream output number `k` (for `k ≥ 1`): the state after `k`
steps divided by 2^32, a rational in `[0,1)`. -/
def lcgOutput (s k : ℕ) : ℚ :=
  (lcgState s k : ℚ) / 4294967296

/-- Reference point `i` of the specification: coordinates drawn from one
shared stream in point order (`x` uses output `2*i+1`, `y` uses output
`2*i+2`), scaled by width and height. -/
def refSeededPoint (s : ℕ) (width height : ℚ) (i : ℕ) : ℚ × ℚ :=
  (lcgOutput s (2 * i + 1) * width, lcgOutput s (2 * i + 2) * height)

/-- Reference point sequence of the specification. -/
def refSeededPoints (count : ℕ) (width height : ℚ) (s : ℕ) : List (ℚ × ℚ) :=
  (List.range count).map (refSeededPoint s width height)

/-! ## Data model: palette colors (`src/types/index.ts`). -/

/-- A palette entry: `{ id, hex, name?, density }` with density as a rational. -/
structure Color where
  id : String
  hex : String
  name : Option String
  density : ℚ
deriving DecidableEq, Repr

/-- Placeholder color used to express JavaScript out-of-range indexing in the
embedding; every indexed access proved about is in bounds. -/
def dfltColor : Color := ⟨"", "", none, 0⟩

/-- `calculateTotalDensity`: `colors.reduce((total, color) => total + color.density, 0)`. -/
def calculateTotalDensity (colors : List Color) : ℚ :=
  colors.foldl (fun total color => total + color.density) 0

/-- The cumulative-sum scan of `getSeededRandomColor`
(and `getWeightedRandomColor`): walk the palette in order, accumulate
`cumulativeDensity += color.density` and return the first color with
`randomValue <= cumulativeDensity`; `none` when the scan falls through. -/
def pickColorLoop : List Color → ℚ → ℚ → Option Color
  | [], _, _ => none
  | color :: rest, cumulativeDensity, randomValue =>
    let cumulative := cumulativeDensity + color.density
    if randomValue ≤ cumulative then some color
    else pickColorLoop rest cumulative randomValue

/-- `getSeededRandomColor(colors, seed)` from `colorUtils.ts`, with the final
LCG state of the function-local seeded source made explicit in the result so
that consumption of random draws is observable (the source discards the
closure when it returns). -/
def getSeededRandomColor (colors : List Color) (seed : ℕ) :
    Except String (Color × ℕ) :=
  if colors.length = 0 then
    .error "Cannot select from empty color array"
  else if colors.length = 1 then
    .ok (colors.getD 0 dfltColor, seed)
  else
    let totalDensity := calculateTotalDensity colors
    if totalDensity = 0 then
      let r := randNext seed
      let randomIndex := (⌊r.1 * (colors.length : ℚ)⌋).toNat
      .ok (colors.getD randomIndex dfltColor, r.2)
    else
      let r := randNext seed
      let randomValue := r.1 * totalDensity
      match pickColorLoop colors 0 randomValue with
      | some color => .ok (color, r.2)
      | none => .ok (colors.getD (colors.length - 1) dfltColor, r.2)

/-! ## Reference categorical draw (written from the words of the
specification, to be compared with `getSeededRandomColor`). -/

/-- Cumulative density sums of a palette in order, starting from `acc`. -/
def cumSums : List Color → ℚ → List ℚ
  | [], _ => []
  | color :: rest, acc => (acc + color.density) :: cumSums rest (acc + color.density)

/-- Reference pick of the specification: the first color (in palette order)
whose cumulative density sum reaches or exceeds `r`, and the last color when
no cumulative sum matches. -/
def refCatPick (colors : List Color) (r : ℚ) : Color :=
  match (colors.zip (cumSums colors 0)).find? (fun p => decide (r ≤ p.2)) with
  | some p => p.1
  | none => colors.getD (colors.length - 1) dfltColor

/-! ## Index view of the seeded draw, for the hex-independence claim: the
same scan performed on the density list alone. -/

/-- The cumulative scan on densities only, returning the position of the
selected entry relative to the front of the list. -/
def pickIdxLoop : List ℚ → ℚ → ℚ → Option ℕ
  | [], _, _ => none
  | d :: rest, cumulativeDensity, randomValue =>
    let cumulative := cumulativeDensity + d
    if randomValue ≤ cumulative then some 0
    else (pickIdxLoop rest cumulative randomValue).map (· + 1)

/-- The palette index selected by `getSeededRandomColor`, together with the
final LCG state, computed from the density list alone (`none` for the empty
palette, which raises). -/
def seededIndexState (ds : List ℚ) (seed : ℕ) : Option (ℕ × ℕ) :=
  if ds.length = 0 then none
  else if ds.length = 1 then some (0, seed)
  else
    let totalDensity := ds.foldl (· + ·) 0
    if totalDensity = 0 then
      let r := randNext seed
      some ((⌊r.1 * (ds.length : ℚ)⌋).toNat, r.2)
    else
      let r := randNext seed
      let randomValue := r.1 * totalDensity
      match pickIdxLoop ds 0 randomValue with
      | some i => some (i, r.2)
      | none => some (ds.length - 1, r.2)

/-! ## Scale to cell count (`getCellCount` in `ScaleControl`, and the same
inline formula in `VoronoiVisualization.tsx`). -/

/-- `Math.round` of JavaScript on the rationals in scope: round half up. -/
def jsRound (q : ℚ) : ℤ :=
  ⌊q + 1 / 2⌋

/-- `getCellCount(scale)`: linear interpolation of scale `[0.1, 4.0]` to cell
count `[100, 10000]`, rounded. -/
def getCellCount (scale : ℚ) : ℤ :=
  let minCells : ℚ := 100
  let maxCells : ℚ := 10000
  let minScale : ℚ := 0.1
  let maxScale : ℚ := 4.0
  jsRound (minCells + (scale - minScale) * (maxCells - minCells) / (maxScale - minScale))

/-! ## PhotometricTransformEngine (`lightingUtils.ts`, `src/unnamed/part_006`).

JavaScript numbers are modelled as `Option` of rationals: `none` stands for
NaN, and every arithmetic operation propagates it exactly as IEEE NaN does.
`Math.pow` is kept abstract as a `powFn` parameter (it may itself produce
NaN, as `Math.pow` does on a negative base with fractional exponent);
theorems quantify over it. -/

/-- A JavaScript number restricted to the values this code can produce:
either an exact rational or NaN (`none`). -/
abbrev JNum := Option ℚ

instance : Add JNum := ⟨fun a b => a.bind fun x => b.bind fun y => some (x + y)⟩

instance : Sub JNum := ⟨fun a b => a.bind fun x => b.bind fun y => some (x - y)⟩

instance : Mul JNum := ⟨fun a b => a.bind fun x => b.bind fun y => some (x * y)⟩

/-- Division; a zero denominator is unreachable in the embedded code (the
only non-constant denominators are the source-white LMS components, guarded
against zero before use), so its value here is immaterial. -/
instance : Div JNum := ⟨fun a b => a.bind fun x => b.bind fun y =>
  if y = 0 then none else some (x / y)⟩

instance : Neg JNum := ⟨Option.map Neg.neg⟩

instance (n : ℕ) : OfNat JNum n := ⟨some (OfNat.ofNat n)⟩

instance : OfScientific JNum := ⟨fun m e b => some (OfScientific.ofScientific m e b)⟩

/-- A `<=` comparison of JavaScript: false whenever either side is NaN. -/
def jle (a b : JNum) : Bool :=
  match a, b with
  | some x, some y => decide (x ≤ y)
  | _, _ => false

/-- `isNaN` of JavaScript on the modelled values. -/
def jIsNaN (a : JNum) : Bool :=
  a.isNone

/-- `Math.min` on two modelled numbers (NaN-propagating). -/
def jmin (a b : JNum) : JNum :=
  a.bind fun x => b.bind fun y => some (min x y)

/-- `Math.max` on two modelled numbers (NaN-propagating). -/
def jmax (a b : JNum) : JNum :=
  a.bind fun x => b.bind fun y => some (max x y)

/-- `Math.round` lifted to modelled numbers. -/
def jsRoundJ (a : JNum) : JNum :=
  a.map fun q => ((⌊q + 1 / 2⌋ : ℤ) : ℚ)

/-- `Math.pow(base, e)` with the abstract `powFn`; NaN input propagates. -/
def jpow (powFn : ℚ → ℚ → JNum) (base : JNum) (e : ℚ) : JNum :=
  base.bind fun bq => powFn bq e

/-- `srgbToLinear`: remove gamma, `value <= 0.04045 ? value / 12.92 :
pow((value + 0.055) / 1.055, 2.4)`. -/
def srgbToLinear (powFn : ℚ → ℚ → JNum) (value : JNum) : JNum :=
  if jle value 0.04045 then value / 12.92
  else jpow powFn ((value + 0.055) / 1.055) 2.4

/-- `linearToSrgb`: apply gamma, `value <= 0.0031308 ? value * 12.92 :
1.055 * pow(value, 1 / 2.4) - 0.055`. -/
def linearToSrgb (powFn : ℚ → ℚ → JNum) (value : JNum) : JNum :=
  if jle value 0.0031308 then value * 12.92
  else 1.055 * jpow powFn value (1 / 2.4) - 0.055

/-- Longest-hex-digit-prefix value of one character, `none` when the
character is not a hexadecimal digit. -/
def hexDigitVal (c : Char) : Option ℕ :=
  if '0' ≤ c ∧ c ≤ '9' then some (c.toNat - '0'.toNat)
  else if 'a' ≤ c ∧ c ≤ 'f' then some (c.toNat - 'a'.toNat + 10)
  else if 'A' ≤ c ∧ c ≤ 'F' then some (c.toNat - 'A'.toNat + 10)
  else none

/-- The digit-parsing core of `parseInt(s, 16)`: strip an optional `0x` or
`0X`, read the longest prefix of hexadecimal digits, NaN when it is empty. -/
def jsParseIntHexCore (cs : List Char) : Option ℕ :=
  let cs2 := match cs with
    | '0' :: 'x' :: rest => rest
    | '0' :: 'X' :: rest => rest
    | _ => cs
  let digits := cs2.takeWhile fun c => (hexDigitVal c).isSome
  if digits.isEmpty then none
  else some (digits.foldl (fun acc c => 16 * acc + (hexDigitVal c).getD 0) 0)

/-- `parseInt(s, 16)` of JavaScript on the strings in scope: skip leading
whitespace, read an optional sign, then the hex-digit prefix; NaN when no
digit is found. -/
def jsParseIntHex (cs : List Char) : JNum :=
  let cs1 := cs.dropWhile Char.isWhitespace
  match cs1 with
  | '-' :: rest => (jsParseIntHexCore rest).map fun v => -(v : ℚ)
  | '+' :: rest => (jsParseIntHexCore rest).map fun v => (v : ℚ)
  | _ => (jsParseIntHexCore cs1).map fun v => (v : ℚ)

/-- `hex.replace('#', '')` of JavaScript: remove the first occurrence of the
hash character. -/
def removeFirstHash : List Char → List Char
  | [] => []
  | c :: rest => if c = '#' then rest else c :: removeFirstHash rest

/-- `hexToRgb` of `lightingUtils.ts`: normalized channel values in `[0,1]`,
3-digit shorthand expanded by doubling each character, black fallback for
any other length. -/
def hexToRgb (hex : String) : JNum × JNum × JNum :=
  let cleanHex := removeFirstHash hex.toList
  if cleanHex.length = 3 then
    (jsParseIntHex [cleanHex.getD 0 ' ', cleanHex.getD 0 ' '] / 255,
     jsParseIntHex [cleanHex.getD 1 ' ', cleanHex.getD 1 ' '] / 255,
     jsParseIntHex [cleanHex.getD 2 ' ', cleanHex.getD 2 ' '] / 255)
  else if cleanHex.length = 6 then
    (jsParseIntHex (cleanHex.take 2) / 255,
     jsParseIntHex ((cleanHex.drop 2).take 2) / 255,
     jsParseIntHex ((cleanHex.drop 4).take 2) / 255)
  else (0, 0, 0)

/-- `padStart(2, '0')` on a digit list. -/
def padStart2 (cs : List Char) : List Char :=
  if cs.length < 2 then List.replicate (2 - cs.length) '0' ++ cs else cs

/-- `rgbToHex` of `lightingUtils.ts`: NaN guard to black, clamp each channel
to `[0, 255]`, round, two zero-padded hex digits each, uppercase. -/
def rgbToHex (r g b : JNum) : String :=
  match r, g, b with
  | some rv, some gv, some bv =>
    let rClamped := (max 0 (min 255 (jsRound rv))).toNat
    let gClamped := (max 0 (min 255 (jsRound gv))).toNat
    let bClamped := (max 0 (min 255 (jsRound bv))).toNat
    let rHex := padStart2 (Nat.toDigits 16 rClamped)
    let gHex := padStart2 (Nat.toDigits 16 gClamped)
    let bHex := padStart2 (Nat.toDigits 16 bClamped)
    String.mk (('#' :: (rHex ++ gHex ++ bHex)).map Char.toUpper)
  | _, _, _ => "#000000"

/-- CIE XYZ triple (components are modelled JavaScript numbers). -/
structure XYZColor where
  X : JNum
  Y : JNum
  Z : JNum
deriving DecidableEq, Repr

/-- A fixed 3x3 matrix; the 3x3 shape check that `applyMatrixTransform`
performs at run time is enforced by this type. -/
structure Matrix3 where
  m00 : JNum
  m01 : JNum
  m02 : JNum
  m10 : JNum
  m11 : JNum
  m12 : JNum
  m20 : JNum
  m21 : JNum
  m22 : JNum
deriving DecidableEq, Repr

/-- `applyMatrixTransform(xyz, matrix)`. -/
def applyMatrixTransform (xyz : XYZColor) (m : Matrix3) : XYZColor :=
  ⟨m.m00 * xyz.X + m.m01 * xyz.Y + m.m02 * xyz.Z,
   m.m10 * xyz.X + m.m11 * xyz.Y + m.m12 * xyz.Z,
   m.m20 * xyz.X + m.m21 * xyz.Y + m.m22 * xyz.Z⟩

/-- `srgbToXyz(r, g, b)`: linearize, apply the fixed D65 sRGB matrix, scale
by 100. -/
def srgbToXyz (powFn : ℚ → ℚ → JNum) (r g b : JNum) : XYZColor :=
  let rLinear := srgbToLinear powFn r
  let gLinear := srgbToLinear powFn g
  let bLinear := srgbToLinear powFn b
  let X := 0.4124564 * rLinear + 0.3575761 * gLinear + 0.1804375 * bLinear
  let Y := 0.2126729 * rLinear + 0.7151522 * gLinear + 0.0721750 * bLinear
  let Z := 0.0193339 * rLinear + 0.1191920 * gLinear + 0.9503041 * bLinear
  ⟨X * 100, Y * 100, Z * 100⟩

/-- The arithmetic core of `xyzToSrgb`: scale down, apply the inverse D65
matrix, gamma-encode.  Factored out of `xyzToSrgb` so that a NaN produced at
this stage is nameable; `xyzToSrgb` wraps it in the NaN guards of the
source. -/
def xyzToSrgbRaw (powFn : ℚ → ℚ → JNum) (xyz : XYZColor) : JNum × JNum × JNum :=
  let X := xyz.X / 100
  let Y := xyz.Y / 100
  let Z := xyz.Z / 100
  let r := 3.2404542 * X - 1.5371385 * Y - 0.4985314 * Z
  let g := -0.9692660 * X + 1.8760108 * Y + 0.0415560 * Z
  let b := 0.0556434 * X - 0.2040259 * Y + 1.0572252 * Z
  (linearToSrgb powFn r, linearToSrgb powFn g, linearToSrgb powFn b)

/-- `xyzToSrgb(xyz)`: NaN on the input or on the gamma-encoded output is
short-circuited to the zero triple, as in the source. -/
def xyzToSrgb (powFn : ℚ → ℚ → JNum) (xyz : XYZColor) : JNum × JNum × JNum :=
  if jIsNaN xyz.X || jIsNaN xyz.Y || jIsNaN xyz.Z then (0, 0, 0)
  else
    let raw := xyzToSrgbRaw powFn xyz
    if jIsNaN raw.1 || jIsNaN raw.2.1 || jIsNaN raw.2.2 then (0, 0, 0)
    else raw

/-- `clampRgb`: clamp each channel to `[0, 1]`. -/
def clampRgb (rgb : JNum × JNum × JNum) : JNum × JNum × JNum :=
  (jmax 0 (jmin 1 rgb.1), jmax 0 (jmin 1 rgb.2.1), jmax 0 (jmin 1 rgb.2.2))

/-- The Bradford XYZ-to-LMS matrix (a local constant of
`chromaticAdaptation` in the source). -/
def bradfordMatrix : Matrix3 :=
  ⟨0.8951, 0.2664, -0.1614,
   -0.7502, 1.7135, 0.0367,
   0.0389, -0.0685, 1.0296⟩

/-- The inverse Bradford LMS-to-XYZ matrix (a local constant of
`chromaticAdaptation` in the source). -/
def bradfordInverse : Matrix3 :=
  ⟨0.9869929, -0.1470543, 0.1599627,
   0.4323053, 0.5183603, 0.0492912,
   -0.0085287, 0.0400428, 0.9684867⟩

/-- `chromaticAdaptation(xyz, sourceWhite, targetWhite)`: Bradford
adaptation with the division-by-zero guard of the source, which returns the
sample unchanged when any source-white LMS component equals zero. -/
def chromaticAdaptation (xyz sourceWhite targetWhite : XYZColor) : XYZColor :=
  let sourceLMS := applyMatrixTransform sourceWhite bradfordMatrix
  let targetLMS := applyMatrixTransform targetWhite bradfordMatrix
  if sourceLMS.X = some 0 ∨ sourceLMS.Y = some 0 ∨ sourceLMS.Z = some 0 then
    xyz
  else
    let adaptMatrix : Matrix3 :=
      ⟨targetLMS.X / sourceLMS.X, 0, 0,
       0, targetLMS.Y / sourceLMS.Y, 0,
       0, 0, targetLMS.Z / sourceLMS.Z⟩
    let lms := applyMatrixTransform xyz bradfordMatrix
    let adaptedLMS := applyMatrixTransform lms adaptMatrix
    applyMatrixTransform adaptedLMS bradfordInverse

/-- The standard D65 white point constant. -/
def D65_WHITE_POINT : XYZColor :=
  ⟨95.047, 100.0, 108.883⟩

/-- Spectral profile enumeration of a light source. -/
inductive SpectralProfile where
  | continuous
  | narrow
  | mixed
deriving DecidableEq, Repr

/-- A light source of the static registry. -/
structure LightSource where
  id : String
  name : String
  description : String
  whitePoint : XYZColor
  colorTemperature : Option ℚ
  spectralProfile : SpectralProfile
  transformMatrix : Option Matrix3
deriving DecidableEq, Repr

/-- The static `LIGHT_SOURCES` registry. -/
def LIGHT_SOURCES : List LightSource :=
  [⟨"incandescent-a", "Incandescent",
    "Warm tungsten bulb (2856K) - traditional indoor lighting",
    ⟨109.85, 100.0, 35.585⟩, some 2856, .continuous, none⟩,
   ⟨"fluorescent-f2", "Fluorescent",
    "Cool white fluorescent (4230K) - office lighting",
    ⟨99.19, 100.0, 67.39⟩, some 4230, .mixed, none⟩,
   ⟨"led-5000k", "LED Cool White",
    "Modern LED bulb (5000K) - energy-efficient lighting",
    ⟨96.42, 100.0, 82.51⟩, some 5000, .mixed, none⟩,
   ⟨"red-660nm", "Red LED (660nm)",
    "Narrow-band red light - specialized viewing condition",
    ⟨41.24, 21.26, 1.93⟩, none, .narrow,
    some ⟨0.8, 0.0, 0.0, 0.3, 0.1, 0.0, 0.0, 0.0, 0.05⟩⟩]

/-- `transformColorForLighting` generalized over the adaptation source white
point, which the source hard-codes to `D65_WHITE_POINT`; the generalization
makes the division-by-zero guard of `chromaticAdaptation` reachable so that
its consequences can be stated. -/
def transformColorForLightingFrom (powFn : ℚ → ℚ → JNum) (sourceWhite : XYZColor)
    (hexColor : String) (lightSource : LightSource) : String :=
  let rgb := hexToRgb hexColor
  let xyz := srgbToXyz powFn rgb.1 rgb.2.1 rgb.2.2
  let transformedXyz :=
    match lightSource.transformMatrix with
    | some m => applyMatrixTransform xyz m
    | none => chromaticAdaptation xyz sourceWhite lightSource.whitePoint
  let transformedRgb := xyzToSrgb powFn transformedXyz
  let clampedRgb := clampRgb transformedRgb
  rgbToHex (jsRoundJ (clampedRgb.1 * 255)) (jsRoundJ (clampedRgb.2.1 * 255))
    (jsRoundJ (clampedRgb.2.2 * 255))

/-- `transformColorForLighting(hexColor, lightSource)` as in the source:
adaptation always starts from the D65 white point. -/
def transformColorForLighting (powFn : ℚ → ℚ → JNum) (hexColor : String)
    (lightSource : LightSource) : String :=
  transformColorForLightingFrom powFn D65_WHITE_POINT hexColor lightSource

/-- The composition of the transform pipeline with the adaptation step
skipped (what the pipeline computes when the zero-LMS guard fires): decode,
convert to XYZ and straight back, clamp, re-encode. -/
def reencodeRoundTrip (powFn : ℚ → ℚ → JNum) (hexColor : String) : String :=
  let rgb := hexToRgb hexColor
  let xyz := srgbToXyz powFn rgb.1 rgb.2.1 rgb.2.2
  let transformedRgb := xyzToSrgb powFn xyz
  let clampedRgb := clampRgb transformedRgb
  rgbToHex (jsRoundJ (clampedRgb.1 * 255)) (jsRoundJ (clampedRgb.2.1 * 255))
    (jsRoundJ (clampedRgb.2.2 * 255))

/-! ## ContrastEngine (`getColorLuminance` in `colorUtils.ts`). -/

/-- The nested `toLinear` helper of `getColorLuminance`: channels arrive in
`[0, 255]`, are normalized by 255 and linearized with the 0.03928 branch
threshold. -/
def toLinear (powFn : ℚ → ℚ → JNum) (value : JNum) : JNum :=
  let normalized := value / 255
  if jle normalized 0.03928 then normalized / 12.92
  else jpow powFn ((normalized + 0.055) / 1.055) 2.4

/-- `getColorLuminance(r, g, b)`: linearize each channel and combine with
the 0.2126, 0.7152, 0.0722 weights. -/
def getColorLuminance (powFn : ℚ → ℚ → JNum) (r g b : JNum) : JNum :=
  let rLinear := toLinear powFn r
  let gLinear := toLinear powFn g
  let bLinear := toLinear powFn b
  0.2126 * rLinear + 0.7152 * gLinear + 0.0722 * bLinear

/-! ## The transform cache (`getCachedColorTransform` in `lightingUtils.ts`).
The process-wide `Map` is embedded as an explicit association list in
insertion order (oldest first), which is the iteration order of a JavaScript
`Map` whose keys are only ever inserted. -/

/-- The transform cache state: `(cacheKey, transformedHex)` pairs, oldest
insertion first. -/
abbrev CacheState := List (String × String)

/-- The `MAX_CACHE_SIZE` bound of the source. -/
def MAX_CACHE_SIZE : ℕ := 1000

/-- `getCachedColorTransform(hexColor, lightId)` with the shared cache as
explicit state: return a hit unchanged; otherwise resolve the light source
(missing id returns the input color), transform, evict the first key in
insertion order when the cache is full, and append the new entry. -/
def getCachedColorTransform (powFn : ℚ → ℚ → JNum) (hexColor lightId : String)
    (cache : CacheState) : String × CacheState :=
  let cacheKey := hexColor ++ "-" ++ lightId
  match cache.lookup cacheKey with
  | some v => (v, cache)
  | none =>
    match LIGHT_SOURCES.find? (fun l => l.id == lightId) with
    | none => (hexColor, cache)
    | some lightSource =>
      let transformed := transformColorForLighting powFn hexColor lightSource
      let cache1 := if MAX_CACHE_SIZE ≤ cache.length then cache.tail else cache
      (transformed, cache1 ++ [(cacheKey, transformed)])

/-! ## The seeded render pass. -/

/-- Modelled from the spec: the seeded per-cell color assignment of the
render pass.  The repository version of `renderVoronoiToCanvas` that takes
the base seed is not among the provided sources (only its caller
`VoronoiVisualization` and the README excerpt
`const cellSeed = seed + i; const randomColor = getSeededRandomColor(colors, cellSeed)`
are), so the per-cell draw is modelled faithfully to those words: cell `i`
is colored by the seeded draw at `seed + i`. -/
def renderCellColor (colors : List Color) (seed i : ℕ) : Except String (Color × ℕ) :=
  getSeededRandomColor colors (seed + i)

/-- Modelled from the spec: the per-cell color assignment sequence of one
render pass over `count` cells. -/
def renderAssignment (colors : List Color) (seed count : ℕ) :
    List (Except String (Color × ℕ)) :=
  (List.range count).map (renderCellColor colors seed)

/-! ## Claim-side predicates. -/

/-- A character is an uppercase hexadecimal digit. -/
def isUpperHexDigit (c : Char) : Bool :=
  decide (('0' ≤ c ∧ c ≤ '9') ∨ ('A' ≤ c ∧ c ≤ 'F'))

/-- A string matches `^#[0-9A-F]{6}$`. -/
def isCanonicalHexString (s : String) : Bool :=
  match s.toList with
  | '#' :: rest => rest.length == 6 && rest.all isUpperHexDigit
  | _ => false

/-- A character is a hexadecimal digit of either case. -/
def isHexDigitChar (c : Char) : Bool :=
  (hexDigitVal c).isSome

/-- An input hex string accepted by the claims: a hash followed by exactly
three or exactly six hexadecimal digits of any letter case. -/
def isValidHexInput (s : String) : Bool :=
  match s.toList with
  | '#' :: rest => (rest.length == 3 || rest.length == 6) && rest.all isHexDigitChar
  | _ => false

/-- Some component of an XYZ triple is NaN. -/
def xyzHasNaN (xyz : XYZColor) : Bool :=
  jIsNaN xyz.X || jIsNaN xyz.Y || jIsNaN xyz.Z

/-- Some component of an RGB triple is NaN. -/
def rgbHasNaN (rgb : JNum × JNum × JNum) : Bool :=
  jIsNaN rgb.1 || jIsNaN rgb.2.1 || jIsNaN rgb.2.2

/-- The XYZ value of the transform pipeline after step 2 (XYZ conversion),
for inspection by the NaN claim. -/
def pipelineXyz (powFn : ℚ → ℚ → JNum) (hexColor : String) : XYZColor :=
  let rgb := hexToRgb hexColor
  srgbToXyz powFn rgb.1 rgb.2.1 rgb.2.2

/-- The XYZ value of the transform pipeline after step 3 (direct matrix
transform or chromatic adaptation), for inspection by the NaN claim. -/
def pipelineTransformedXyz (powFn : ℚ → ℚ → JNum) (hexColor : String)
    (lightSource : LightSource) : XYZColor :=
  let xyz := pipelineXyz powFn hexColor
  match lightSource.transformMatrix with
  | some m => applyMatrixTransform xyz m
  | none => chromaticAdaptation xyz D65_WHITE_POINT lightSource.whitePoint

/-! # Theorems -/

/-! ## C1: the point field generator -/

theorem lcgNext_lt (s : ℕ) : lcgNext s < 4294967296 :=
  Nat.mod_lt _ (by norm_num)

theorem lcgOutput_nonneg (s k : ℕ) : 0 ≤ lcgOutput s k := by
  unfold lcgOutput
  positivity

theorem lcgOutput_lt_one (s k : ℕ) (hk : k ≠ 0) : lcgOutput s k < 1 := by
  obtain ⟨m, rfl⟩ := Nat.exists_eq_succ_of_ne_zero hk
  unfold lcgOutput lcgState
  rw [Function.iterate_succ_apply', div_lt_one (by norm_num)]
  exact_mod_cast lcgNext_lt _

theorem lcgState_zero (s : ℕ) : lcgState s 0 = s :=
  rfl

theorem lcgState_succ (s k : ℕ) : lcgState s (k + 1) = lcgState (lcgNext s) k := by
  unfold lcgState
  exact Function.iterate_succ_apply lcgNext k s

theorem lcgState_add_two (s k : ℕ) :
    lcgState s (k + 2) = lcgState (lcgNext (lcgNext s)) k := by
  have h1 : k + 2 = (k + 1) + 1 := by ring
  rw [h1, lcgState_succ, lcgState_succ]

theorem generateSeededPointsGo_succ (state : ℕ) (width height : ℚ) (n : ℕ) :
    generateSeededPointsGo state width height (n + 1) =
      ((randNext state).1 * width, (randNext (randNext state).2).1 * height) ::
        generateSeededPointsGo (randNext (randNext state).2).2 width height n := by
  rfl

set_option maxRecDepth 4000 in
theorem generateSeededPointsGo_eq (width height : ℚ) (count : ℕ) :
    ∀ state, generateSeededPointsGo state width height count =
      (List.range count).map fun i =>
        (lcgOutput state (2 * i + 1) * width, lcgOutput state (2 * i + 2) * height) := by
  induction count with
  | zero => intro state; simp [generateSeededPointsGo]
  | succ n ih =>
    intro state
    rw [generateSeededPointsGo_succ, ih, List.range_succ_eq_map, List.map_cons, List.map_map]
    refine List.cons_eq_cons.mpr ⟨?_, ?_⟩
    · norm_num
      constructor
      · rw [lcgOutput, show (1 : ℕ) = 0 + 1 from rfl, lcgState_succ, lcgState_zero]
        simp [randNext]
      · rw [lcgOutput, show (2 : ℕ) = 0 + 1 + 1 from rfl, lcgState_succ, lcgState_succ,
          lcgState_zero]
        simp [randNext]
    · apply List.map_congr_left
      intro i _
      have h2 : 2 * (i + 1) + 1 = (2 * i + 1) + 2 := by ring
      have h3 : 2 * (i + 1) + 2 = (2 * i + 2) + 2 := by ring
      simp only [Function.comp, Nat.succ_eq_add_one, h2, h3]
      rw [show (randNext (randNext state).2).2 = lcgNext (lcgNext state) from rfl]
      simp only [lcgOutput]
      conv_rhs => rw [lcgState_add_two, lcgState_add_two]

/-- C1: for every cell count, canvas width and height (positive), and
non-negative integer seed, `generateSeededPoints` equals the reference
sequence drawn from one shared LCG stream started at the seed (recurrence
`state * 1664525 + 1013904223 mod 2^32`, output `state / 2^32`, `x` then `y`
per point in point order, scaled by width and height); consequently two
calls with the same arguments agree and every generated point lies in
`[0, width) x [0, height)`. -/
theorem c1_generateSeededPoints_matches_reference (n : ℕ) (width height : ℚ) (s : ℕ)
    (hw : 0 < width) (hh : 0 < height) :
    generateSeededPoints n width height s = refSeededPoints n width height s ∧
    generateSeededPoints n width height s = generateSeededPoints n width height s ∧
    ∀ p ∈ generateSeededPoints n width height s,
      0 ≤ p.1 ∧ p.1 < width ∧ 0 ≤ p.2 ∧ p.2 < height := by
  have heq : generateSeededPoints n width height s = refSeededPoints n width height s := by
    unfold generateSeededPoints refSeededPoints refSeededPoint
    exact generateSeededPointsGo_eq width height n s
  refine ⟨heq, rfl, ?_⟩
  intro p hp
  rw [heq] at hp
  unfold refSeededPoints at hp
  simp only [List.mem_map, List.mem_range] at hp
  obtain ⟨i, _, rfl⟩ := hp
  unfold refSeededPoint
  refine ⟨mul_nonneg (lcgOutput_nonneg s _) hw.le, ?_,
    mul_nonneg (lcgOutput_nonneg s _) hh.le, ?_⟩
  · have h1 := lcgOutput_lt_one s (2 * i + 1) (by omega)
    calc lcgOutput s (2 * i + 1) * width < 1 * width :=
          mul_lt_mul_of_pos_right h1 hw
      _ = width := one_mul width
  · have h1 := lcgOutput_lt_one s (2 * i + 2) (by omega)
    calc lcgOutput s (2 * i + 2) * height < 1 * height :=
          mul_lt_mul_of_pos_right h1 hh
      _ = height := one_mul height

/-- Witness for C1 at cell count 2, a 100 by 100 canvas and seed 42. -/
theorem c1_generateSeededPoints_matches_reference_witness :
    generateSeededPoints 2 100 100 42 = refSeededPoints 2 100 100 42 ∧
    generateSeededPoints 2 100 100 42 = generateSeededPoints 2 100 100 42 ∧
    ∀ p ∈ generateSeededPoints 2 100 100 42,
      0 ≤ p.1 ∧ p.1 < 100 ∧ 0 ≤ p.2 ∧ p.2 < 100 :=
  c1_generateSeededPoints_matches_reference 2 100 100 42 (by decide) (by decide)

/-! ## C8: scale to cell count -/

/-- C8: for every user-facing scale value in `[0.1, 4.0]`, the derived cell
count equals `round(100 + (scale - 0.1) * (10000 - 100) / (4.0 - 0.1))`
clamped to `[100, 10000]` (the code computes the unclamped formula, whose
value already lies in the clamp interval on this domain), and the endpoints
map to exactly 100 and exactly 10000 cells. -/
theorem c8_getCellCount_spec (scale : ℚ) (hlo : 0.1 ≤ scale) (hhi : scale ≤ 4.0) :
    getCellCount scale =
      max 100 (min 10000 (jsRound (100 + (scale - 0.1) * (10000 - 100) / (4.0 - 0.1)))) ∧
    getCellCount 0.1 = 100 ∧ getCellCount 4.0 = 10000 := by
  have hform : getCellCount scale =
      jsRound (100 + (scale - 0.1) * (10000 - 100) / (4.0 - 0.1)) := rfl
  have hE : (100 : ℚ) + (scale - 0.1) * (10000 - 100) / (4.0 - 0.1) =
      100 + (scale - 1 / 10) * (33000 / 13) := by
    ring_nf
  have hlo2 : (1 / 10 : ℚ) ≤ scale := by norm_num at hlo ⊢; linarith
  have hhi2 : scale ≤ 4 := by norm_num at hhi ⊢; linarith
  have h100 : (100 : ℤ) ≤ jsRound (100 + (scale - 0.1) * (10000 - 100) / (4.0 - 0.1)) := by
    unfold jsRound
    rw [Int.le_floor, hE]
    push_cast
    linarith
  have h10000 : jsRound (100 + (scale - 0.1) * (10000 - 100) / (4.0 - 0.1)) ≤ 10000 := by
    have hlt : jsRound (100 + (scale - 0.1) * (10000 - 100) / (4.0 - 0.1)) < 10001 := by
      unfold jsRound
      rw [Int.floor_lt, hE]
      push_cast
      linarith
    omega
  refine ⟨?_, ?_, ?_⟩
  · rw [hform, min_eq_right h10000, max_eq_right h100]
  · unfold getCellCount jsRound
    norm_num
  · unfold getCellCount jsRound
    norm_num

/-- Witness for C8 at scale 1. -/
theorem c8_getCellCount_spec_witness :
    getCellCount 1 =
      max 100 (min 10000 (jsRound (100 + ((1 : ℚ) - 0.1) * (10000 - 100) / (4.0 - 0.1)))) ∧
    getCellCount 0.1 = 100 ∧ getCellCount 4.0 = 10000 :=
  c8_getCellCount_spec 1 (by norm_num) (by norm_num)

/-! ## C2: the seeded weighted sampler -/

theorem pickColorLoop_eq_find (rv : ℚ) :
    ∀ (colors : List Color) (acc : ℚ),
      pickColorLoop colors acc rv =
        ((colors.zip (cumSums colors acc)).find? (fun p => decide (rv ≤ p.2))).map Prod.fst := by
  intro colors
  induction colors with
  | nil => intro acc; rfl
  | cons c rest ih =>
    intro acc
    rw [cumSums, List.zip_cons_cons]
    by_cases h : rv ≤ acc + c.density
    · rw [List.find?_cons_of_pos _ (by simpa using h)]
      simp [pickColorLoop, h]
    · rw [List.find?_cons_of_neg _ (by simpa using h)]
      simp [pickColorLoop, h, ih]

/-- C2: `getSeededRandomColor` implements the reference categorical draw of
the specification: the empty palette raises the empty-palette error, a
one-element palette returns its color without consuming a draw (final LCG
state still equals the seed), a zero total density falls back to the uniform
index `floor(random() * n)`, and otherwise with `r = random() * totalDensity`
the first color in palette order whose cumulative density sum reaches or
exceeds `r` is returned, the last color standing in when no cumulative sum
matches (`refCatPick`). -/
theorem c2_getSeededRandomColor_reference (colors : List Color) (seed : ℕ) :
    (colors = [] →
      getSeededRandomColor colors seed = .error "Cannot select from empty color array") ∧
    (∀ c, colors = [c] → getSeededRandomColor colors seed = .ok (c, seed)) ∧
    (2 ≤ colors.length → calculateTotalDensity colors = 0 →
      getSeededRandomColor colors seed =
        .ok (colors.getD (⌊(randNext seed).1 * (colors.length : ℚ)⌋).toNat dfltColor,
          (randNext seed).2)) ∧
    (2 ≤ colors.length → calculateTotalDensity colors ≠ 0 →
      getSeededRandomColor colors seed =
        .ok (refCatPick colors ((randNext seed).1 * calculateTotalDensity colors),
          (randNext seed).2)) := by
  refine ⟨?_, ?_, ?_, ?_⟩
  · intro h
    subst h
    rfl
  · intro c h
    subst h
    rfl
  · intro hlen htot
    unfold getSeededRandomColor
    rw [if_neg (by omega), if_neg (by omega), if_pos htot]
  · intro hlen htot
    unfold getSeededRandomColor
    rw [if_neg (by omega), if_neg (by omega), if_neg htot]
    show (match pickColorLoop colors 0 ((randNext seed).1 * calculateTotalDensity colors) with
      | some color => Except.ok (color, (randNext seed).2)
      | none =>
        Except.ok (colors.getD (colors.length - 1) dfltColor, (randNext seed).2)) = _
    rw [pickColorLoop_eq_find]
    unfold refCatPick
    cases hfind : (colors.zip (cumSums colors 0)).find?
        (fun p => decide ((randNext seed).1 * calculateTotalDensity colors ≤ p.2)) with
    | none => simp [hfind]
    | some p => simp [hfind]

/-- Witness for C2: the empty palette raises, a singleton returns its color
with the seed unconsumed, and a two-color palette returns the reference
cumulative pick. -/
theorem c2_getSeededRandomColor_reference_witness :
    getSeededRandomColor [] 7 = .error "Cannot select from empty color array" ∧
    getSeededRandomColor [⟨"a", "#FF0000", none, 1⟩] 7 =
      .ok (⟨"a", "#FF0000", none, 1⟩, 7) ∧
    getSeededRandomColor [⟨"a", "#FF0000", none, 1⟩, ⟨"b", "#00FF00", none, 1⟩] 42 =
      .ok (refCatPick [⟨"a", "#FF0000", none, 1⟩, ⟨"b", "#00FF00", none, 1⟩]
          ((randNext 42).1 *
            calculateTotalDensity [⟨"a", "#FF0000", none, 1⟩, ⟨"b", "#00FF00", none, 1⟩]),
        (randNext 42).2) :=
  ⟨(c2_getSeededRandomColor_reference [] 7).1 rfl,
   (c2_getSeededRandomColor_reference [⟨"a", "#FF0000", none, 1⟩] 7).2.1 _ rfl,
   (c2_getSeededRandomColor_reference [⟨"a", "#FF0000", none, 1⟩, ⟨"b", "#00FF00", none, 1⟩]
      42).2.2.2 (by decide) (by norm_num [calculateTotalDensity])⟩

/-! ## C4: the selected palette index depends only on densities -/

theorem pickColorLoop_eq_pickIdxLoop (rv : ℚ) :
    ∀ (colors : List Color) (acc : ℚ),
      pickColorLoop colors acc rv =
        (pickIdxLoop (colors.map (·.density)) acc rv).map
          (fun i => colors.getD i dfltColor) := by
  intro colors
  induction colors with
  | nil => intro acc; rfl
  | cons c rest ih =>
    intro acc
    rw [List.map_cons]
    by_cases h : rv ≤ acc + c.density
    · simp [pickColorLoop, pickIdxLoop, h]
    · simp only [pickColorLoop, pickIdxLoop, h, if_false, ih, Option.map_map]
      rfl

theorem foldl_map_density (colors : List Color) :
    (colors.map (·.density)).foldl (· + ·) 0 = calculateTotalDensity colors := by
  unfold calculateTotalDensity
  rw [List.foldl_map]

theorem getSeededRandomColor_eq_index (colors : List Color) (seed : ℕ) :
    getSeededRandomColor colors seed =
      match seededIndexState (colors.map (·.density)) seed with
      | none => .error "Cannot select from empty color array"
      | some (i, st) => .ok (colors.getD i dfltColor, st) := by
  unfold getSeededRandomColor seededIndexState
  rw [List.length_map, foldl_map_density]
  by_cases h0 : colors.length = 0
  · rw [if_pos h0, if_pos h0]
  · rw [if_neg h0, if_neg h0]
    by_cases h1 : colors.length = 1
    · rw [if_pos h1, if_pos h1]
    · rw [if_neg h1, if_neg h1]
      by_cases htot : calculateTotalDensity colors = 0
      · rw [if_pos htot, if_pos htot]
      · rw [if_neg htot, if_neg htot]
        cases hfind : pickIdxLoop (colors.map (·.density)) 0
            ((randNext seed).1 * calculateTotalDensity colors) with
        | none => simp [pickColorLoop_eq_pickIdxLoop, hfind, List.length_map]
        | some i => simp [pickColorLoop_eq_pickIdxLoop, hfind]

/-- C4: for any two palettes with equal density lists (hex values and all
other fields arbitrary) and any seed, `getSeededRandomColor` selects the
same palette index from both, so the per-cell index sequence is unchanged by
editing any color hex value: the index-and-state view agrees on the two
palettes, and whenever it selects index `i` with final state `st`, both
draws return their own color number `i` with that state. -/
theorem c4_seeded_draw_hex_independent (p1 p2 : List Color) (seed : ℕ)
    (h : p1.map (·.density) = p2.map (·.density)) :
    seededIndexState (p1.map (·.density)) seed =
      seededIndexState (p2.map (·.density)) seed ∧
    ∀ i st, seededIndexState (p1.map (·.density)) seed = some (i, st) →
      getSeededRandomColor p1 seed = .ok (p1.getD i dfltColor, st) ∧
      getSeededRandomColor p2 seed = .ok (p2.getD i dfltColor, st) := by
  refine ⟨by rw [h], ?_⟩
  intro i st hidx
  constructor
  · rw [getSeededRandomColor_eq_index, hidx]
  · rw [getSeededRandomColor_eq_index, ← h, hidx]

/-- Witness for C4: two palettes equal except for the first hex value select
index 0 with the same final LCG state at seed 7. -/
theorem c4_seeded_draw_hex_independent_witness :
    getSeededRandomColor [⟨"a", "#FF0000", none, 1⟩, ⟨"b", "#00FF00", none, 2⟩] 7 =
      .ok (([(⟨"a", "#FF0000", none, 1⟩ : Color), ⟨"b", "#00FF00", none, 2⟩].getD 0 dfltColor),
        1025555898) ∧
    getSeededRandomColor [⟨"a", "#123456", none, 1⟩, ⟨"b", "#00FF00", none, 2⟩] 7 =
      .ok (([(⟨"a", "#123456", none, 1⟩ : Color), ⟨"b", "#00FF00", none, 2⟩].getD 0 dfltColor),
        1025555898) := by
  have hidx : seededIndexState
      ([(⟨"a", "#FF0000", none, 1⟩ : Color), ⟨"b", "#00FF00", none, 2⟩].map (·.density)) 7 =
      some (0, 1025555898) := by
    norm_num [seededIndexState, randNext, lcgNext, pickIdxLoop, List.foldl_cons, List.foldl_nil]
  exact (c4_seeded_draw_hex_independent
    [⟨"a", "#FF0000", none, 1⟩, ⟨"b", "#00FF00", none, 2⟩]
    [⟨"a", "#123456", none, 1⟩, ⟨"b", "#00FF00", none, 2⟩] 7 rfl).2 0 1025555898 hidx

/-! ## C3: the seeded per-cell render assignment -/

/-- C3 (the seeded render loop is modelled from the spec, see
`renderCellColor`): the color assigned to cell `i` is the deterministic
seeded draw at `baseSeed + i`; the whole per-cell sequence is exactly the
map of that draw over the cell indices, so re-invoking the render with the
same base seed, palette order and densities reproduces the identical
sequence, and cell 0 receives exactly the draw seeded with `baseSeed + 0`. -/
theorem c3_render_assignment_seeded (colors : List Color) (seed count i : ℕ)
    (hi : i < count) :
    renderAssignment colors seed count =
      (List.range count).map (fun j => getSeededRandomColor colors (seed + j)) ∧
    (renderAssignment colors seed count).getD i (.error "") =
      getSeededRandomColor colors (seed + i) ∧
    renderAssignment colors seed count = renderAssignment colors seed count ∧
    renderCellColor colors seed 0 = getSeededRandomColor colors seed := by
  refine ⟨rfl, ?_, rfl, by rw [renderCellColor, Nat.add_zero]⟩
  unfold renderAssignment
  rw [List.getD_eq_getElem?_getD, List.getElem?_map, List.getElem?_range hi]
  rfl

/-- Witness for C3: a two-color palette, base seed 42, 100 cells, cell 0. -/
theorem c3_render_assignment_seeded_witness :
    renderAssignment [⟨"a", "#FF0000", none, 1⟩, ⟨"b", "#00FF00", none, 1⟩] 42 100 =
      (List.range 100).map
        (fun j => getSeededRandomColor [⟨"a", "#FF0000", none, 1⟩, ⟨"b", "#00FF00", none, 1⟩]
          (42 + j)) ∧
    (renderAssignment [⟨"a", "#FF0000", none, 1⟩, ⟨"b", "#00FF00", none, 1⟩] 42 100).getD 0
        (.error "") =
      getSeededRandomColor [⟨"a", "#FF0000", none, 1⟩, ⟨"b", "#00FF00", none, 1⟩] (42 + 0) ∧
    renderAssignment [⟨"a", "#FF0000", none, 1⟩, ⟨"b", "#00FF00", none, 1⟩] 42 100 =
      renderAssignment [⟨"a", "#FF0000", none, 1⟩, ⟨"b", "#00FF00", none, 1⟩] 42 100 ∧
    renderCellColor [⟨"a", "#FF0000", none, 1⟩, ⟨"b", "#00FF00", none, 1⟩] 42 0 =
      getSeededRandomColor [⟨"a", "#FF0000", none, 1⟩, ⟨"b", "#00FF00", none, 1⟩] 42 :=
  c3_render_assignment_seeded [⟨"a", "#FF0000", none, 1⟩, ⟨"b", "#00FF00", none, 1⟩] 42 100 0
    (by decide)

/-! ## C9: the two gamma linearizations agree on decoded channels -/

theorem jnum_div_some (a b : ℚ) :
    (some a : JNum) / some b = if b = 0 then none else some (a / b) :=
  rfl

/-- C9: for every channel value obtained by decoding a hex color (an
integer in `[0, 255]`) and every `Math.pow` realization, the `toLinear`
linearization used by `getColorLuminance` (threshold 0.03928, input scaled
from `[0, 255]`) returns the same value as the `srgbToLinear` step of the
photometric engine (threshold 0.04045, input already in `[0, 1]`): no
integer channel divided by 255 falls between the two thresholds, so both
take the same branch. -/
theorem c9_toLinear_matches_srgbToLinear (powFn : ℚ → ℚ → JNum) (c : ℕ)
    (hc : c ≤ 255) :
    toLinear powFn (some (c : ℚ)) = srgbToLinear powFn (some ((c : ℚ) / 255)) := by
  have hdiv : (some (c : ℚ) : JNum) / (255 : JNum) = some ((c : ℚ) / 255) := by
    rw [show (255 : JNum) = some (255 : ℚ) from rfl, jnum_div_some,
      if_neg (by norm_num : (255 : ℚ) ≠ 0)]
  have hcond : jle (some ((c : ℚ) / 255)) 0.03928 = jle (some ((c : ℚ) / 255)) 0.04045 := by
    show decide ((c : ℚ) / 255 ≤ 0.03928) = decide ((c : ℚ) / 255 ≤ 0.04045)
    rw [decide_eq_decide]
    constructor
    · intro h
      calc (c : ℚ) / 255 ≤ 0.03928 := h
        _ ≤ 0.04045 := by norm_num
    · intro h
      have hup : (c : ℚ) ≤ 0.04045 * 255 := by
        rw [div_le_iff₀ (by norm_num : (0 : ℚ) < 255)] at h
        exact h
      have hlt11 : (c : ℚ) < 11 := lt_of_le_of_lt hup (by norm_num)
      have hnat : c < 11 := by exact_mod_cast hlt11
      have hc10 : (c : ℚ) ≤ 10 := by
        have : c ≤ 10 := by omega
        exact_mod_cast this
      rw [div_le_iff₀ (by norm_num : (0 : ℚ) < 255)]
      calc (c : ℚ) ≤ 10 := hc10
        _ ≤ 0.03928 * 255 := by norm_num
  simp only [toLinear, srgbToLinear, hdiv, hcond]

/-- Witness for C9 at channel value 200 with a constant pow realization. -/
theorem c9_toLinear_matches_srgbToLinear_witness :
    toLinear (fun _ _ => some 0) (some ((200 : ℕ) : ℚ)) =
      srgbToLinear (fun _ _ => some 0) (some (((200 : ℕ) : ℚ) / 255)) :=
  c9_toLinear_matches_srgbToLinear (fun _ _ => some 0) 200 (by decide)

/-! ## C10: the transform always returns a canonical hex string -/

set_option maxRecDepth 10000 in
theorem hexPad_ok : ∀ n : Fin 256,
    ((padStart2 (Nat.toDigits 16 n.val)).map Char.toUpper).length = 2 ∧
    ((padStart2 (Nat.toDigits 16 n.val)).map Char.toUpper).all isUpperHexDigit = true := by
  decide

theorem clamp255_lt (z : ℤ) : (max 0 (min 255 z)).toNat < 256 := by
  omega

theorem rgbToHex_canonical (r g b : JNum) :
    isCanonicalHexString (rgbToHex r g b) = true := by
  cases r with
  | none => cases g <;> cases b <;> rfl
  | some rv =>
    cases g with
    | none => cases b <;> rfl
    | some gv =>
      cases b with
      | none => rfl
      | some bv =>
        obtain ⟨hlr, har⟩ := hexPad_ok ⟨_, clamp255_lt (jsRound rv)⟩
        obtain ⟨hlg, hag⟩ := hexPad_ok ⟨_, clamp255_lt (jsRound gv)⟩
        obtain ⟨hlb, hab⟩ := hexPad_ok ⟨_, clamp255_lt (jsRound bv)⟩
        simp only [rgbToHex, isCanonicalHexString]
        rw [show ∀ l : List Char, (String.mk l).toList = l from fun _ => rfl]
        rw [List.map_cons, show Char.toUpper '#' = '#' from rfl]
        simp only [List.map_append, List.all_append, List.length_append]
        rw [hlr, hlg, hlb, har, hag, hab]
        rfl

/-- C10: for every input hex string with three or six hex digits of any
letter case after the hash, and every light source,
`transformColorForLighting` returns a string matching `^#[0-9A-F]{6}$`:
each output channel is clamped to `[0, 255]`, rounded, zero-padded to two
hex digits and uppercased before encoding (the encoder guarantees this
format for every input and every `Math.pow` realization). -/
theorem c10_transform_output_format (powFn : ℚ → ℚ → JNum) (hex : String)
    (light : LightSource) (_hvalid : isValidHexInput hex = true) :
    isCanonicalHexString (transformColorForLighting powFn hex light) = true := by
  unfold transformColorForLighting transformColorForLightingFrom
  exact rgbToHex_canonical _ _ _

/-- Witness for C10 at the lowercase shorthand input and the first registry
light source. -/
theorem c10_transform_output_format_witness :
    isCanonicalHexString (transformColorForLighting (fun _ _ => some 0) "#abc"
      (LIGHT_SOURCES.getD 0 ⟨"", "", "", ⟨0, 0, 0⟩, none, .continuous, none⟩)) = true :=
  c10_transform_output_format (fun _ _ => some 0) "#abc"
    (LIGHT_SOURCES.getD 0 ⟨"", "", "", ⟨0, 0, 0⟩, none, .continuous, none⟩) (by decide)

/-! ## C6: NaN anywhere in the pipeline becomes black -/

theorem jnum_mul_none (a : JNum) : a * none = none := by
  cases a <;> rfl

theorem jnum_none_mul (a : JNum) : (none : JNum) * a = none :=
  rfl

theorem jnum_add_none (a : JNum) : a + none = none := by
  cases a <;> rfl

theorem jnum_none_add (a : JNum) : (none : JNum) + a = none :=
  rfl

theorem applyMatrix_poison (xyz : XYZColor) (m : Matrix3)
    (h : xyzHasNaN xyz = true) :
    applyMatrixTransform xyz m = ⟨none, none, none⟩ := by
  obtain ⟨X, Y, Z⟩ := xyz
  simp only [xyzHasNaN, jIsNaN, Bool.or_eq_true, Option.isNone_iff_eq_none] at h
  unfold applyMatrixTransform
  rcases h with (h | h) | h <;> subst h <;>
    simp [jnum_mul_none, jnum_add_none, jnum_none_add, jnum_none_mul]

theorem stage1_poison_stage2 (powFn : ℚ → ℚ → JNum) (hex : String)
    (light : LightSource) (h : xyzHasNaN (pipelineXyz powFn hex) = true) :
    xyzHasNaN (pipelineTransformedXyz powFn hex light) = true := by
  unfold pipelineTransformedXyz
  cases hm : light.transformMatrix with
  | some m =>
    show xyzHasNaN (applyMatrixTransform (pipelineXyz powFn hex) m) = true
    rw [applyMatrix_poison _ _ h]
    rfl
  | none =>
    simp only [chromaticAdaptation]
    split
    · exact h
    · rw [applyMatrix_poison (pipelineXyz powFn hex) bradfordMatrix h]
      rw [applyMatrix_poison ⟨none, none, none⟩ _ rfl]
      rw [applyMatrix_poison ⟨none, none, none⟩ _ rfl]
      rfl

theorem clampRgb_zero : clampRgb ((0 : JNum), (0 : JNum), (0 : JNum)) =
    ((some 0 : JNum), (some 0 : JNum), (some 0 : JNum)) := by
  show ((some (max 0 (min 1 0)) : JNum), (some (max 0 (min 1 0)) : JNum),
    (some (max 0 (min 1 0)) : JNum)) = _
  norm_num

theorem jsRoundJ_zero_mul : jsRoundJ ((some 0 : JNum) * 255) = some 0 := by
  show some ((⌊(0 : ℚ) * 255 + 1 / 2⌋ : ℤ) : ℚ) = some 0
  norm_num

theorem rgbToHex_zero : rgbToHex (some 0) (some 0) (some 0) = "#000000" := by
  unfold rgbToHex
  have hjr : jsRound (0 : ℚ) = 0 := by
    unfold jsRound
    norm_num
  simp only [hjr]
  rfl

/-- C6: for every input hex string, light source and `Math.pow`
realization, if a NaN appears at any stage of the transform pipeline — the
XYZ conversion, the matrix transform or adaptation step, or the gamma
re-encoding — then `transformColorForLighting` returns black `#000000`; in
particular the NaN never reaches the output string. -/
theorem c6_nan_short_circuits_to_black (powFn : ℚ → ℚ → JNum) (hex : String)
    (light : LightSource)
    (h : xyzHasNaN (pipelineXyz powFn hex) = true ∨
      xyzHasNaN (pipelineTransformedXyz powFn hex light) = true ∨
      rgbHasNaN (xyzToSrgbRaw powFn (pipelineTransformedXyz powFn hex light)) = true) :
    transformColorForLighting powFn hex light = "#000000" := by
  have h2 : xyzHasNaN (pipelineTransformedXyz powFn hex light) = true ∨
      rgbHasNaN (xyzToSrgbRaw powFn (pipelineTransformedXyz powFn hex light)) = true := by
    rcases h with h | h | h
    · exact Or.inl (stage1_poison_stage2 powFn hex light h)
    · exact Or.inl h
    · exact Or.inr h
  have hzero : xyzToSrgb powFn (pipelineTransformedXyz powFn hex light) = (0, 0, 0) := by
    unfold xyzToSrgb
    by_cases hfirst : xyzHasNaN (pipelineTransformedXyz powFn hex light) = true
    · unfold xyzHasNaN at hfirst
      rw [if_pos hfirst]
    · have hraw : rgbHasNaN (xyzToSrgbRaw powFn (pipelineTransformedXyz powFn hex light))
          = true := by
        rcases h2 with h2 | h2
        · exact absurd h2 hfirst
        · exact h2
      unfold xyzHasNaN at hfirst
      rw [if_neg hfirst]
      unfold rgbHasNaN at hraw
      rw [if_pos hraw]
  show rgbToHex
      (jsRoundJ ((clampRgb (xyzToSrgb powFn (pipelineTransformedXyz powFn hex light))).1 * 255))
      (jsRoundJ
        ((clampRgb (xyzToSrgb powFn (pipelineTransformedXyz powFn hex light))).2.1 * 255))
      (jsRoundJ
        ((clampRgb (xyzToSrgb powFn (pipelineTransformedXyz powFn hex light))).2.2 * 255)) =
    "#000000"
  rw [hzero, clampRgb_zero]
  show rgbToHex (jsRoundJ ((some 0 : JNum) * 255)) (jsRoundJ ((some 0 : JNum) * 255))
    (jsRoundJ ((some 0 : JNum) * 255)) = "#000000"
  rw [jsRoundJ_zero_mul, rgbToHex_zero]

/-- Witness for C6: an unparsable hex string produces NaN channels at the
XYZ conversion stage, and the transform returns black. -/
theorem c6_nan_short_circuits_to_black_witness :
    transformColorForLighting (fun _ _ => some 0) "#zzzzzz"
      (LIGHT_SOURCES.getD 0 ⟨"", "", "", ⟨0, 0, 0⟩, none, .continuous, none⟩) = "#000000" :=
  c6_nan_short_circuits_to_black (fun _ _ => some 0) "#zzzzzz"
    (LIGHT_SOURCES.getD 0 ⟨"", "", "", ⟨0, 0, 0⟩, none, .continuous, none⟩)
    (Or.inl (by decide))

/-! ## C5: the zero-LMS guard of chromatic adaptation -/

theorem chromaticAdaptation_skip (xyz sourceWhite targetWhite : XYZColor)
    (hg : (applyMatrixTransform sourceWhite bradfordMatrix).X = some 0 ∨
      (applyMatrixTransform sourceWhite bradfordMatrix).Y = some 0 ∨
      (applyMatrixTransform sourceWhite bradfordMatrix).Z = some 0) :
    chromaticAdaptation xyz sourceWhite targetWhite = xyz := by
  simp only [chromaticAdaptation]
  rw [if_pos hg]

/-- C5 (amended): when any Bradford LMS component of the adaptation source
white point is zero, `chromaticAdaptation` skips adaptation and returns its
XYZ sample unchanged, so the transform returns the round-trip re-encoding
of the original color (not necessarily the identical hex string); the
actual `transformColorForLighting` always adapts from the D65 white point,
whose LMS components are all nonzero, so this guard never fires there. -/
theorem c5_zero_lms_guard_amended :
    (∀ xyz sourceWhite targetWhite : XYZColor,
      ((applyMatrixTransform sourceWhite bradfordMatrix).X = some 0 ∨
        (applyMatrixTransform sourceWhite bradfordMatrix).Y = some 0 ∨
        (applyMatrixTransform sourceWhite bradfordMatrix).Z = some 0) →
      chromaticAdaptation xyz sourceWhite targetWhite = xyz) ∧
    (∀ (powFn : ℚ → ℚ → JNum) (sourceWhite : XYZColor) (hex : String)
      (light : LightSource), light.transformMatrix = none →
      ((applyMatrixTransform sourceWhite bradfordMatrix).X = some 0 ∨
        (applyMatrixTransform sourceWhite bradfordMatrix).Y = some 0 ∨
        (applyMatrixTransform sourceWhite bradfordMatrix).Z = some 0) →
      transformColorForLightingFrom powFn sourceWhite hex light =
        reencodeRoundTrip powFn hex) ∧
    ((applyMatrixTransform D65_WHITE_POINT bradfordMatrix).X ≠ some 0 ∧
      (applyMatrixTransform D65_WHITE_POINT bradfordMatrix).Y ≠ some 0 ∧
      (applyMatrixTransform D65_WHITE_POINT bradfordMatrix).Z ≠ some 0) := by
  refine ⟨chromaticAdaptation_skip, ?_, ?_, ?_, ?_⟩
  · intro powFn sourceWhite hex light hmatrix hg
    simp only [transformColorForLightingFrom, reencodeRoundTrip, hmatrix]
    rw [chromaticAdaptation_skip _ _ _ hg]
  · intro hc
    rw [show (applyMatrixTransform D65_WHITE_POINT bradfordMatrix).X =
        some (0.8951 * 95.047 + 0.2664 * 100.0 + -(0.1614 : ℚ) * 108.883) from rfl,
      Option.some.injEq] at hc
    norm_num at hc
  · intro hc
    rw [show (applyMatrixTransform D65_WHITE_POINT bradfordMatrix).Y =
        some (-(0.7502 : ℚ) * 95.047 + 1.7135 * 100.0 + 0.0367 * 108.883) from rfl,
      Option.some.injEq] at hc
    norm_num at hc
  · intro hc
    rw [show (applyMatrixTransform D65_WHITE_POINT bradfordMatrix).Z =
        some ((0.0389 : ℚ) * 95.047 + -(0.0685 : ℚ) * 100.0 + 1.0296 * 108.883) from rfl,
      Option.some.injEq] at hc
    norm_num at hc

/-- Counterexample for C5 as stated: at the concrete source white point
`(0, 0, 0)` every LMS component is zero and adaptation is skipped for the
matrixless incandescent light source, yet the transform of the input
`"#000"` is a canonical six-digit string and therefore not the exact input
hex string. -/
theorem c5_zero_lms_guard_counterexample :
    ((applyMatrixTransform ⟨0, 0, 0⟩ bradfordMatrix).X = some 0 ∨
      (applyMatrixTransform ⟨0, 0, 0⟩ bradfordMatrix).Y = some 0 ∨
      (applyMatrixTransform ⟨0, 0, 0⟩ bradfordMatrix).Z = some 0) ∧
    (LIGHT_SOURCES.getD 0
      ⟨"", "", "", ⟨0, 0, 0⟩, none, .continuous, none⟩).transformMatrix = none ∧
    transformColorForLightingFrom (fun _ _ => some 0) ⟨0, 0, 0⟩ "#000"
      (LIGHT_SOURCES.getD 0 ⟨"", "", "", ⟨0, 0, 0⟩, none, .continuous, none⟩) ≠ "#000" := by
  have hg : (applyMatrixTransform (⟨0, 0, 0⟩ : XYZColor) bradfordMatrix).X = some 0 := by
    rw [show (applyMatrixTransform (⟨0, 0, 0⟩ : XYZColor) bradfordMatrix).X =
        some ((0.8951 : ℚ) * 0 + 0.2664 * 0 + -(0.1614 : ℚ) * 0) from rfl,
      Option.some.injEq]
    norm_num
  refine ⟨Or.inl hg, rfl, ?_⟩
  intro heq
  have hcanon : isCanonicalHexString (transformColorForLightingFrom (fun _ _ => some 0)
      ⟨0, 0, 0⟩ "#000"
      (LIGHT_SOURCES.getD 0 ⟨"", "", "", ⟨0, 0, 0⟩, none, .continuous, none⟩)) = true := by
    unfold transformColorForLightingFrom
    exact rgbToHex_canonical _ _ _
  rw [heq] at hcanon
  exact absurd hcanon (by decide)

/-- Witness for C5 (amended) at the zero source white, the matrixless
incandescent light and a gray sample. -/
theorem c5_zero_lms_guard_amended_witness :
    chromaticAdaptation ⟨some 50, some 50, some 50⟩ ⟨0, 0, 0⟩
      ⟨some 109.85, some 100.0, some 35.585⟩ = ⟨some 50, some 50, some 50⟩ ∧
    transformColorForLightingFrom (fun _ _ => some 0) ⟨0, 0, 0⟩ "#808080"
      (LIGHT_SOURCES.getD 0 ⟨"", "", "", ⟨0, 0, 0⟩, none, .continuous, none⟩) =
      reencodeRoundTrip (fun _ _ => some 0) "#808080" := by
  have hg : (applyMatrixTransform (⟨0, 0, 0⟩ : XYZColor) bradfordMatrix).X = some 0 := by
    rw [show (applyMatrixTransform (⟨0, 0, 0⟩ : XYZColor) bradfordMatrix).X =
        some ((0.8951 : ℚ) * 0 + 0.2664 * 0 + -(0.1614 : ℚ) * 0) from rfl,
      Option.some.injEq]
    norm_num
  exact ⟨c5_zero_lms_guard_amended.1 ⟨some 50, some 50, some 50⟩ ⟨0, 0, 0⟩
      ⟨some 109.85, some 100.0, some 35.585⟩ (Or.inl hg),
    c5_zero_lms_guard_amended.2.1 (fun _ _ => some 0) ⟨0, 0, 0⟩ "#808080"
      (LIGHT_SOURCES.getD 0 ⟨"", "", "", ⟨0, 0, 0⟩, none, .continuous, none⟩) rfl
      (Or.inl hg)⟩

/-! ## C7: the transform cache bound and insertion-order eviction -/

theorem lookup_replicate_of_ne (n : ℕ) (k a b : String) (h : k ≠ a) :
    (List.replicate n (a, b)).lookup k = none := by
  induction n with
  | zero => rfl
  | succ m ih =>
    simp [List.replicate_succ, List.lookup, beq_eq_false_iff_ne.mpr h, ih]

/-- C7: every call of `getCachedColorTransform` preserves the 1000-entry
bound of the transform cache, and on a miss that would make the cache
exceed the bound exactly one entry — the single oldest-inserted one, the
head of the insertion-ordered state — is evicted before the new entry is
appended. -/
theorem c7_cache_bound_and_eviction (powFn : ℚ → ℚ → JNum)
    (hexColor lightId : String) (cache : CacheState) :
    (cache.length ≤ 1000 →
      (getCachedColorTransform powFn hexColor lightId cache).2.length ≤ 1000) ∧
    (∀ lightSource, cache.length = 1000 →
      cache.lookup (hexColor ++ "-" ++ lightId) = none →
      LIGHT_SOURCES.find? (fun l => l.id == lightId) = some lightSource →
      (getCachedColorTransform powFn hexColor lightId cache).2 =
        cache.tail ++ [(hexColor ++ "-" ++ lightId,
          transformColorForLighting powFn hexColor lightSource)]) := by
  constructor
  · intro hle
    simp only [getCachedColorTransform]
    cases hlook : cache.lookup (hexColor ++ "-" ++ lightId) with
    | some v => simpa using hle
    | none =>
      cases hfind : LIGHT_SOURCES.find? (fun l => l.id == lightId) with
      | none => simpa using hle
      | some ls =>
        by_cases hfull : MAX_CACHE_SIZE ≤ cache.length
        · rw [if_pos hfull]
          unfold MAX_CACHE_SIZE at hfull
          simp only [List.length_append, List.length_tail, List.length_cons,
            List.length_nil]
          omega
        · rw [if_neg hfull]
          unfold MAX_CACHE_SIZE at hfull
          simp only [List.length_append, List.length_cons, List.length_nil]
          omega
  · intro ls h1000 hmiss hfind
    simp only [getCachedColorTransform, hmiss, hfind]
    rw [if_pos (by unfold MAX_CACHE_SIZE; omega)]

/-- Witness for C7: a full 1000-entry cache, a missing key and the
incandescent registry light: the call keeps the bound and replaces exactly
the oldest entry. -/
theorem c7_cache_bound_and_eviction_witness :
    (getCachedColorTransform (fun _ _ => some 0) "#FF0000" "incandescent-a"
      (List.replicate 1000 ("k", "v"))).2.length ≤ 1000 ∧
    (getCachedColorTransform (fun _ _ => some 0) "#FF0000" "incandescent-a"
      (List.replicate 1000 ("k", "v"))).2 =
      (List.replicate 1000 (("k" : String), ("v" : String))).tail ++
        [("#FF0000" ++ "-" ++ "incandescent-a",
          transformColorForLighting (fun _ _ => some 0) "#FF0000"
            (LIGHT_SOURCES.getD 0 ⟨"", "", "", ⟨0, 0, 0⟩, none, .continuous, none⟩))] := by
  have h := c7_cache_bound_and_eviction (fun _ _ => some 0) "#FF0000" "incandescent-a"
    (List.replicate 1000 ("k", "v"))
  exact ⟨h.1 (by rw [List.length_replicate]),
    h.2 (LIGHT_SOURCES.getD 0 ⟨"", "", "", ⟨0, 0, 0⟩, none, .continuous, none⟩)
      (by rw [List.length_replicate])
      (lookup_replicate_of_ne 1000 _ _ _ (by decide)) rfl⟩
